import Mathlib

/-!
Verification development for the batrun shell-script test runner
(source file src/batrun.py).

The Python source is embedded shallowly:

* Python strings are Lean String values; the string primitives the code
  relies on (str.strip, str.split, lexicographic comparison used by
  list.sort, pathlib's with_suffix and basename handling) are modelled
  explicitly over the underlying character lists so that every
  definition is executable by the kernel.
* The filesystem and the bash interpreter are modelled as oracles passed
  in as parameters: the recursive directory walk of a suite directory is
  a list of clean relative file paths, the "source the file and ask the
  shell for its function symbols" subprocess of
  BashTestDriver._get_test_functions_in_file is a function from the file
  path to Option String (none models the except-branch: the subprocess
  raised), and the manifest files on disk are a function from path to
  Option ManifestJson.
* The Python methods read self.test_suite_dir, self.targets and the
  module-level name GLOBAL_TEST_FILE (the latter is only bound in a
  commented-out block of the file); the embedding passes these as
  explicit parameters.
* Fallible Python code (uncaught exceptions such as FileNotFoundError or
  TypeError) is modelled with Except PyError.
-/

namespace Batrun

/-! ### Python string primitives, modelled over character lists -/

/-- Python str.strip with no argument: drop leading and trailing
whitespace. -/
def pyStrip (l : List Char) : List Char :=
  ((l.dropWhile Char.isWhitespace).reverse.dropWhile Char.isWhitespace).reverse

/-- Python str.split with an explicit one-character separator: unlike
str.split with no argument it never returns an empty list; splitting the
empty string yields a list holding one empty string. -/
def pySplitOnChar (c : Char) : List Char → List (List Char)
  | [] => [[]]
  | x :: xs =>
    match pySplitOnChar c xs, decide (x = c) with
    | r, true => [] :: r
    | [], false => [[x]]
    | y :: ys, false => (x :: y) :: ys

/-- Lexicographic comparison of character lists by code point, the order
Python uses when list.sort sorts strings (and, component-wise, paths). -/
def charListLe : List Char → List Char → Bool
  | [], _ => true
  | _ :: _, [] => false
  | a :: as, b :: bs =>
    if a.toNat < b.toNat then true
    else if b.toNat < a.toNat then false
    else charListLe as bs

/-- Lexicographic order on strings by code point. -/
def strLe (a b : String) : Bool :=
  charListLe a.data b.data

/-- The part of a clean relative path after its last slash, i.e. the
basename os.walk yields for the file (the variable the Python filter at
line 167 of src/batrun.py tests). -/
def basenameData (l : List Char) : List Char :=
  ((l.reverse.takeWhile (fun c => decide (c ≠ '/'))).reverse)

/-- Python str.endswith applied to the fixed literal ".sh". -/
def endsWithSh (p : String) : Bool :=
  decide (['.', 's', 'h'] <:+ p.data)

/-- pathlib's with_suffix("") applied to a path whose last component ends
in ".sh": it removes that suffix, except when the whole last component is
".sh" (a dot-file has no suffix in pathlib, so the path is returned
unchanged). This is the value of test_id in discover_tests. -/
def pyWithSuffixEmpty (p : String) : String :=
  if basenameData p.data = ['.', 's', 'h'] then p
  else String.mk (p.data.take (p.data.length - 3))

/-! ### Data model (classes of src/batrun.py) -/

/-- The TestResult enumeration (src/batrun.py lines 29-35). -/
inductive TestResult where
  | NOTRUN
  | RUNNING
  | FAILED
  | PASSED
  | SKIPPED
  | DRYRUN
deriving DecidableEq

/-- The Python exceptions relevant to the embedded code paths.
typeError is the generic TypeError raised by an arithmetic operation on
None; fileNotFoundError is raised by open() on a missing path;
invalidState stands for the distinguished contract-violation error the
specification describes (no code path of src/batrun.py raises it). -/
inductive PyError where
  | typeError
  | fileNotFoundError
  | invalidState
deriving DecidableEq

/-- The Duration dataclass (src/batrun.py lines 38-44): both timestamps
default to None; timestamps are modelled as integers. -/
structure Duration where
  start_time : Option Int := none
  end_time : Option Int := none
deriving DecidableEq

/-- Duration.elapsed (src/batrun.py line 43-44): the body evaluates
self.end_time - self.start_time. When either operand is still None the
subtraction raises the generic TypeError (unsupported operand types);
there is no guard and no distinguished error. -/
def Duration.elapsed (d : Duration) : Except PyError Int :=
  match d.end_time, d.start_time with
  | some e, some s => Except.ok (e - s)
  | some _, none => Except.error PyError.typeError
  | none, _ => Except.error PyError.typeError

/-- TestRecord (src/batrun.py lines 61-67): file, name, target are set by
the constructor; result starts as NOTRUN. (The duration attribute starts
as None and is never touched by the embedded code paths, so it is
omitted.) -/
structure TestRecord where
  file : String
  name : String
  target : String
  result : TestResult
deriving DecidableEq

/-- TestRecord.__init__ (src/batrun.py lines 62-67). -/
def mkTestRecord (file name target : String) : TestRecord :=
  { file := file, name := name, target := target, result := TestResult.NOTRUN }

/-- The parsed JSON object of a test-suite.json manifest, as far as
TestSuiteConfig.load reads it: each field access is dict.get, which
yields None when the key is absent. -/
structure ManifestJson where
  name : Option String := none
  description : Option String := none
  version : Option String := none
  driver : Option String := none
  testFilePattern : Option (List String) := none
  globalFixture : Option String := none
deriving DecidableEq

/-- The TestSuiteConfig dataclass (src/batrun.py lines 74-81), with field
types as load actually populates them: dict.get with no default yields
None, test-file-pattern defaults to the empty list, global-fixture
defaults to None. -/
structure TestSuiteConfig where
  name : Option String
  description : Option String
  version : Option String
  driver : Option String
  test_file_pattern : List String
  global_fixture : Option String
deriving DecidableEq

/-- TestSuiteConfig.load (src/batrun.py lines 83-96): opens
test_suite_dir/"test-suite.json" (an absent manifest makes open raise
FileNotFoundError, which no caller catches) and builds the config with
dict.get defaults: [] for test-file-pattern, None for global-fixture. -/
def TestSuiteConfig.load (manifests : String → Option ManifestJson)
    (test_suite_dir : String) : Except PyError TestSuiteConfig :=
  match manifests (test_suite_dir ++ "/test-suite.json") with
  | none => Except.error PyError.fileNotFoundError
  | some j =>
      Except.ok
        { name := j.name
          description := j.description
          version := j.version
          driver := j.driver
          test_file_pattern := j.testFilePattern.getD []
          global_fixture := j.globalFixture }

/-- TestSuite (src/batrun.py lines 99-103): a config plus its records
(initially empty). -/
structure TestSuite where
  config : TestSuiteConfig
  test_records : List TestRecord
deriving DecidableEq

/-- Settings (src/batrun.py lines 106-112). -/
structure Settings where
  test_suite_dirs : List String
  out_dir : String
  target : Option String
  dry_run : Bool
  test_filter : Option String
deriving DecidableEq

/-! ### BashTestDriver (src/batrun.py lines 135-195) -/

/-- BashTestDriver.default_test_file_pattern (src/batrun.py lines
140-142). -/
def BashTestDriver.default_test_file_pattern : List String :=
  ["*.sh", "*.bash"]

/-- BashTestDriver._get_test_functions_in_file (src/batrun.py lines
144-158), written without the leading underscore. The subprocess
"bash -c source FILE; compgen -A function" is the introspect oracle:
some stdout models a successful run, none models the raised exception.
On success the code returns result.stdout.strip().split("\n") - note
that no filtering whatsoever is applied to the names; on failure the
except branch prints a message and returns the empty list. -/
def BashTestDriver.get_test_functions_in_file
    (introspect : String → Option String) (test_file : String) : List String :=
  match introspect test_file with
  | some stdout => (pySplitOnChar '\n' (pyStrip stdout.data)).map String.mk
  | none => []

/-- The file filter of the walk loop in discover_tests (src/batrun.py
lines 165-169): keep a file iff its basename ends with ".sh" and its
basename differs from the module-level name GLOBAL_TEST_FILE. -/
def candidateFiles (listing : List String) (global_test_file : String) : List String :=
  listing.filter fun f =>
    endsWithSh f && ! decide (String.mk (basenameData f.data) = global_test_file)

/-- test_files.sort() at src/batrun.py line 172: the candidate files in
lexicographic order. -/
def sortedTestFiles (listing : List String) (global_test_file : String) : List String :=
  List.insertionSort (fun a b => strLe a b = true) (candidateFiles listing global_test_file)

/-- The record-building loops of discover_tests for one file
(src/batrun.py lines 174-189): compute test_id, introspect the file once,
then for each target and each returned function name append one
TestRecord named test_id ++ "::" ++ function. -/
def perFileRecords (introspect : String → Option String)
    (targets : List String) (test_file : String) : List TestRecord :=
  targets.flatMap fun target =>
    (BashTestDriver.get_test_functions_in_file introspect test_file).map fun test_function =>
      mkTestRecord test_file (pyWithSuffixEmpty test_file ++ "::" ++ test_function) target

/-- BashTestDriver.discover_tests (src/batrun.py lines 161-191). The
os.walk of the suite directory is the listing parameter (clean relative
paths of all files found recursively); self.targets and the module name
GLOBAL_TEST_FILE are parameters. The relative_to call never raises here
because every walked path lies under the suite directory, so test_id is
always the relative path with its ".sh" suffix removed. -/
def BashTestDriver.discover_tests (listing : List String)
    (introspect : String → Option String) (targets : List String)
    (global_test_file : String) : List TestRecord :=
  (sortedTestFiles listing global_test_file).flatMap
    (perFileRecords introspect targets)

/-- The number of test function names discovered across a suite's
candidate files (the total over files of what
get_test_functions_in_file returns). -/
def discoveredFunctionCount (listing : List String)
    (introspect : String → Option String) (global_test_file : String) : Nat :=
  ((sortedTestFiles listing global_test_file).map
    (fun f => (BashTestDriver.get_test_functions_in_file introspect f).length)).sum

/-- BashTestDriver.run_test (src/batrun.py lines 193-195): the body is
pass. The returned pair is the (unchanged) record together with the
number of child processes the call spawns. -/
def BashTestDriver.run_test (test_record : TestRecord) : TestRecord × Nat :=
  (test_record, 0)

/-! ### TestRunner (src/batrun.py lines 198-232) -/

/-- TestRunner.add_test_suite (src/batrun.py lines 220-222): load the
manifest and store the new TestSuite under its directory. The fileExists
oracle is the on-disk state the method could consult; the body never
uses it - in particular it performs no existence check of a declared
global fixture. -/
def TestRunner.add_test_suite (manifests : String → Option ManifestJson)
    (fileExists : String → Bool) (test_suite_dir : String)
    (test_suites : List (String × TestSuite)) :
    Except PyError (List (String × TestSuite)) :=
  match TestSuiteConfig.load manifests test_suite_dir with
  | Except.error e => Except.error e
  | Except.ok config =>
      Except.ok (test_suites ++ [(test_suite_dir, ⟨config, []⟩)])

/-- TestRunner.run_tests (src/batrun.py lines 230-232): the body prepares
the output directory and then does nothing (pass): no record is touched
and no driver call is made. The returned pair is the (unchanged) suite
together with the number of child processes spawned. -/
def TestRunner.run_tests (settings : Settings) (test_suite : TestSuite) :
    TestSuite × Nat :=
  (test_suite, 0)

/-! ### Constants of the test-function naming convention.

The active code of src/batrun.py references the module-level name
GLOBAL_TEST_FILE (line 167) without binding it; the only bindings of it
and of the prefix/setup/teardown convention constants live in the
commented-out block at lines 401-405. Modelled from the spec: the
test-function convention is a fixed prefix "test_" with reserved names
"setup" and "teardown", and the global test file name is "tests.sh". -/

/-- TEST_FN_SETUP (commented-out line 402 of src/batrun.py). -/
def TEST_FN_SETUP : String := "setup"

/-- TEST_FN_TEARDOWN (commented-out line 403 of src/batrun.py). -/
def TEST_FN_TEARDOWN : String := "teardown"

/-- The fixed test-function name prefix TEST_FN_PREFIX (commented-out
line 404 of src/batrun.py). -/
def testFnPrefixStr : String := "test_"

/-- GLOBAL_TEST_FILE (commented-out line 405 of src/batrun.py). -/
def GLOBAL_TEST_FILE : String := "tests.sh"

/-- Whether a name matches the fixed test-function prefix convention. -/
def hasTestFnPrefixConvention (s : String) : Bool :=
  testFnPrefixStr.data.isPrefixOf s.data

/-- Whether an Except value is a success. -/
def exceptIsOk {ε α : Type} : Except ε α → Bool
  | Except.ok _ => true
  | Except.error _ => false

instance {ε α : Type} [DecidableEq ε] [DecidableEq α] :
    DecidableEq (Except ε α) := fun x y =>
  match x, y with
  | Except.ok a, Except.ok b =>
    if h : a = b then Decidable.isTrue (by rw [h])
    else Decidable.isFalse (fun he => h (Except.ok.inj he))
  | Except.error a, Except.error b =>
    if h : a = b then Decidable.isTrue (by rw [h])
    else Decidable.isFalse (fun he => h (Except.error.inj he))
  | Except.ok _, Except.error _ => Decidable.isFalse (fun he => Except.noConfusion he)
  | Except.error _, Except.ok _ => Decidable.isFalse (fun he => Except.noConfusion he)

/-! ### Order theory of the code-point comparator -/

theorem charListLe_refl : ∀ l : List Char, charListLe l l = true
  | [] => rfl
  | a :: as => by
    simp only [charListLe, Nat.lt_irrefl, if_false]
    exact charListLe_refl as

theorem charListLe_total : ∀ l₁ l₂ : List Char,
    charListLe l₁ l₂ = true ∨ charListLe l₂ l₁ = true
  | [], _ => Or.inl rfl
  | _ :: _, [] => Or.inr rfl
  | a :: as, b :: bs => by
    by_cases h1 : a.toNat < b.toNat
    · left
      simp [charListLe, h1]
    · by_cases h2 : b.toNat < a.toNat
      · right
        simp [charListLe, h2]
      · have h3 := charListLe_total as bs
        simpa [charListLe, h1, h2] using h3

theorem charListLe_trans : ∀ l₁ l₂ l₃ : List Char, charListLe l₁ l₂ = true →
    charListLe l₂ l₃ = true → charListLe l₁ l₃ = true
  | [], _, _, _, _ => rfl
  | _ :: _, [], _, h1, _ => by simp [charListLe] at h1
  | _ :: _, _ :: _, [], _, h2 => by simp [charListLe] at h2
  | a :: as, b :: bs, c :: cs, h1, h2 => by
    simp only [charListLe] at h1 h2 ⊢
    by_cases hab : a.toNat < b.toNat
    · by_cases hbc : b.toNat < c.toNat
      · rw [if_pos (Nat.lt_trans hab hbc)]
      · by_cases hcb : c.toNat < b.toNat
        · rw [if_neg hbc, if_pos hcb] at h2
          exact absurd h2 Bool.false_ne_true
        · rw [if_pos (show a.toNat < c.toNat by omega)]
    · by_cases hba : b.toNat < a.toNat
      · rw [if_neg hab, if_pos hba] at h1
        exact absurd h1 Bool.false_ne_true
      · rw [if_neg hab, if_neg hba] at h1
        by_cases hbc : b.toNat < c.toNat
        · rw [if_pos (show a.toNat < c.toNat by omega)]
        · by_cases hcb : c.toNat < b.toNat
          · rw [if_neg hbc, if_pos hcb] at h2
            exact absurd h2 Bool.false_ne_true
          · rw [if_neg hbc, if_neg hcb] at h2
            rw [if_neg (show ¬ a.toNat < c.toNat by omega),
              if_neg (show ¬ c.toNat < a.toNat by omega)]
            exact charListLe_trans as bs cs h1 h2

theorem char_toNat_inj {a b : Char} (h : a.toNat = b.toNat) : a = b := by
  have h2 := congrArg Char.ofNat h
  simpa [Char.ofNat_toNat] using h2

theorem charListLe_antisymm : ∀ l₁ l₂ : List Char, charListLe l₁ l₂ = true →
    charListLe l₂ l₁ = true → l₁ = l₂
  | [], [], _, _ => rfl
  | [], _ :: _, _, h2 => by simp [charListLe] at h2
  | _ :: _, [], h1, _ => by simp [charListLe] at h1
  | a :: as, b :: bs, h1, h2 => by
    simp only [charListLe] at h1 h2
    by_cases hab : a.toNat < b.toNat
    · rw [if_neg (show ¬ b.toNat < a.toNat by omega), if_pos hab] at h2
      exact absurd h2 Bool.false_ne_true
    · by_cases hba : b.toNat < a.toNat
      · rw [if_neg hab, if_pos hba] at h1
        exact absurd h1 Bool.false_ne_true
      · rw [if_neg hab, if_neg hba] at h1
        rw [if_neg hba, if_neg hab] at h2
        rw [char_toNat_inj (show a.toNat = b.toNat by omega),
          charListLe_antisymm as bs h1 h2]

theorem str_data_append (s t : String) : (s ++ t).data = s.data ++ t.data := rfl

instance : IsTotal String (fun a b => strLe a b = true) :=
  ⟨fun a b => charListLe_total a.data b.data⟩

instance : IsTrans String (fun a b => strLe a b = true) :=
  ⟨fun a b c => charListLe_trans a.data b.data c.data⟩

instance : IsAntisymm String (fun a b => strLe a b = true) :=
  ⟨fun a b h1 h2 => String.ext (charListLe_antisymm a.data b.data h1 h2)⟩

/-! ### Splitting a qualified name at its "::" separator is unambiguous
when the function-name part is colon-free -/

theorem sep_split_unique {x y : List Char} (hx : ∀ c ∈ x, c ≠ ':')
    (hy : ∀ c ∈ y, c ≠ ':') :
    ∀ u v : List Char, u ++ ':' :: ':' :: x = v ++ ':' :: ':' :: y →
      u = v ∧ x = y := by
  intro u
  induction u with
  | nil =>
    intro v h
    cases v with
    | nil =>
      simp only [List.nil_append, List.cons.injEq] at h
      exact ⟨rfl, h.2.2⟩
    | cons b t =>
      simp only [List.nil_append, List.cons_append, List.cons.injEq] at h
      cases t with
      | nil =>
        simp only [List.nil_append, List.cons.injEq] at h
        exact absurd rfl (hx ':' (h.2.2 ▸ List.mem_cons_self ':' y))
      | cons b2 t2 =>
        simp only [List.cons_append, List.cons.injEq] at h
        refine absurd rfl (hx ':' ?_)
        rw [h.2.2]
        exact List.mem_append_right t2 (List.mem_cons_self ':' (':' :: y))
  | cons a u ih =>
    intro v h
    cases v with
    | nil =>
      simp only [List.cons_append, List.nil_append, List.cons.injEq] at h
      cases u with
      | nil =>
        simp only [List.nil_append, List.cons.injEq] at h
        exact absurd rfl (hy ':' (h.2.2 ▸ List.mem_cons_self ':' x))
      | cons a2 u2 =>
        simp only [List.cons_append, List.cons.injEq] at h
        refine absurd rfl (hy ':' ?_)
        rw [← h.2.2]
        exact List.mem_append_right u2 (List.mem_cons_self ':' (':' :: x))
    | cons b t =>
      simp only [List.cons_append, List.cons.injEq] at h
      obtain ⟨h1, h2⟩ := h
      obtain ⟨h3, h4⟩ := ih t h2
      exact ⟨by rw [h1, h3], h4⟩

theorem qualified_name_inj {a b x y : String}
    (hx : ∀ c ∈ x.data, c ≠ ':') (hy : ∀ c ∈ y.data, c ≠ ':')
    (h : a ++ "::" ++ x = b ++ "::" ++ y) : a = b ∧ x = y := by
  have hd : a.data ++ ':' :: ':' :: x.data = b.data ++ ':' :: ':' :: y.data := by
    have h2 := congrArg String.data h
    simpa [str_data_append, List.append_assoc] using h2
  obtain ⟨h1, h2⟩ := sep_split_unique hx hy a.data b.data hd
  exact ⟨String.ext h1, String.ext h2⟩

theorem str_append_left_cancel {a x y : String} (h : a ++ x = a ++ y) : x = y := by
  have h2 := congrArg String.data h
  simp only [str_data_append] at h2
  exact String.ext (List.append_cancel_left h2)

theorem str_append_empty (s : String) : s ++ "" = s :=
  String.ext (by simp [str_data_append])

/-! ### Facts about the path helpers -/

theorem endsWithSh_exists {p : String} (h : endsWithSh p = true) :
    ∃ t, p.data = t ++ ['.', 's', 'h'] := by
  have hs : ['.', 's', 'h'] <:+ p.data := of_decide_eq_true h
  obtain ⟨t, ht⟩ := hs
  exact ⟨t, ht.symm⟩

theorem pyWithSuffixEmpty_inj {p q : String}
    (hp : endsWithSh p = true) (hq : endsWithSh q = true)
    (hp2 : basenameData p.data ≠ ['.', 's', 'h'])
    (hq2 : basenameData q.data ≠ ['.', 's', 'h'])
    (h : pyWithSuffixEmpty p = pyWithSuffixEmpty q) : p = q := by
  obtain ⟨tp, htp⟩ := endsWithSh_exists hp
  obtain ⟨tq, htq⟩ := endsWithSh_exists hq
  rw [pyWithSuffixEmpty, pyWithSuffixEmpty, if_neg hp2, if_neg hq2] at h
  have h2 : p.data.take (p.data.length - 3) = q.data.take (q.data.length - 3) :=
    congrArg String.data h
  have hplen : p.data.length = tp.length + 3 := by rw [htp]; simp
  have hqlen : q.data.length = tq.length + 3 := by rw [htq]; simp
  have htkp : p.data.take (p.data.length - 3) = tp := by
    rw [htp]
    simp only [List.length_append, List.length_cons, List.length_nil]
    exact List.take_left' (by omega)
  have htkq : q.data.take (q.data.length - 3) = tq := by
    rw [htq]
    simp only [List.length_append, List.length_cons, List.length_nil]
    exact List.take_left' (by omega)
  apply String.ext
  rw [htp, htq, htkp.symm.trans (h2.trans htkq)]

/-! ### Generic list lemmas used to reason about the discovery loops -/

theorem flatMap_filter_key {α β : Type} [DecidableEq α] (key : β → α) :
    ∀ (l : List α) (g : α → List β), (∀ a ∈ l, ∀ b ∈ g a, key b = a) → l.Nodup →
    ∀ a₀ : α, (l.flatMap g).filter (fun b => decide (key b = a₀))
      = if a₀ ∈ l then g a₀ else []
  | [], _, _, _, _ => by simp
  | a :: l, g, hkey, hnd, a₀ => by
    rw [List.flatMap_cons, List.filter_append]
    have hnd2 := List.nodup_cons.mp hnd
    have ih := flatMap_filter_key key l g
      (fun x hx b hb => hkey x (List.mem_cons_of_mem a hx) b hb) hnd2.2 a₀
    by_cases ha : a = a₀
    · subst ha
      have hfl : (g a).filter (fun b => decide (key b = a)) = g a :=
        List.filter_eq_self.mpr fun b hb =>
          decide_eq_true (hkey a (List.mem_cons_self a l) b hb)
      rw [hfl, ih, if_neg hnd2.1, if_pos (List.mem_cons_self a l), List.append_nil]
    · have hfl : (g a).filter (fun b => decide (key b = a₀)) = [] :=
        List.filter_eq_nil_iff.mpr fun b hb => by
          simp only [decide_eq_true_eq]
          rw [hkey a (List.mem_cons_self a l) b hb]
          exact ha
      rw [hfl, ih, List.nil_append]
      by_cases hmem : a₀ ∈ l
      · rw [if_pos hmem, if_pos (List.mem_cons_of_mem a hmem)]
      · rw [if_neg hmem, if_neg (by simpa [ha, eq_comm] using hmem)]

theorem flatMap_filter_of_empty {α β : Type} (g : α → List β) (p : α → Bool) :
    ∀ l : List α, (∀ a ∈ l, p a = false → g a = []) →
    (l.filter p).flatMap g = l.flatMap g
  | [], _ => rfl
  | a :: l, h => by
    have ih := flatMap_filter_of_empty g p l
      (fun x hx hp => h x (List.mem_cons_of_mem a hx) hp)
    rw [List.flatMap_cons]
    by_cases hp : p a
    · rw [List.filter_cons_of_pos hp, List.flatMap_cons, ih]
    · rw [List.filter_cons_of_neg (by simpa using hp), ih,
        h a (List.mem_cons_self a l) (by simpa using hp), List.nil_append]

/-! ### Structure of the discovery output -/

theorem mem_candidateFiles {listing : List String} {gtf f : String} :
    f ∈ candidateFiles listing gtf ↔
      f ∈ listing ∧ endsWithSh f = true ∧ String.mk (basenameData f.data) ≠ gtf := by
  simp [candidateFiles, List.mem_filter, Bool.and_eq_true, and_assoc]

theorem sortedTestFiles_perm (listing : List String) (gtf : String) :
    (sortedTestFiles listing gtf).Perm (candidateFiles listing gtf) :=
  List.perm_insertionSort _ _

theorem mem_sortedTestFiles_iff {listing : List String} {gtf f : String} :
    f ∈ sortedTestFiles listing gtf ↔ f ∈ candidateFiles listing gtf :=
  (sortedTestFiles_perm listing gtf).mem_iff

theorem sortedTestFiles_nodup {listing : List String} (gtf : String)
    (h : listing.Nodup) : (sortedTestFiles listing gtf).Nodup :=
  ((sortedTestFiles_perm listing gtf).nodup_iff).mpr (h.filter _)

theorem sortedTestFiles_sorted (listing : List String) (gtf : String) :
    List.Sorted (fun a b => strLe a b = true) (sortedTestFiles listing gtf) :=
  List.sorted_insertionSort _ _

theorem sortedTestFiles_filter_comm (p : String → Bool) (listing : List String)
    (gtf : String) :
    sortedTestFiles (listing.filter p) gtf = (sortedTestFiles listing gtf).filter p := by
  apply List.eq_of_perm_of_sorted (r := fun a b => strLe a b = true)
  · refine ((sortedTestFiles_perm _ _).trans ?_).trans
      ((List.Perm.filter p (sortedTestFiles_perm listing gtf)).symm)
    rw [candidateFiles, candidateFiles, List.filter_filter, List.filter_filter]
    exact List.Perm.of_eq (List.filter_congr fun a _ => by rw [Bool.and_comm])
  · exact sortedTestFiles_sorted _ _
  · exact List.Pairwise.filter p (sortedTestFiles_sorted listing gtf)

theorem mem_perFileRecords {i : String → Option String} {ts : List String}
    {f : String} {r : TestRecord} :
    r ∈ perFileRecords i ts f ↔ ∃ tg ∈ ts,
      ∃ fn ∈ BashTestDriver.get_test_functions_in_file i f,
        mkTestRecord f (pyWithSuffixEmpty f ++ "::" ++ fn) tg = r := by
  simp [perFileRecords, List.mem_flatMap, List.mem_map]

theorem perFileRecords_file {i : String → Option String} {ts : List String}
    {f : String} {r : TestRecord} (h : r ∈ perFileRecords i ts f) : r.file = f := by
  obtain ⟨tg, _, fn, _, hr⟩ := mem_perFileRecords.mp h
  rw [← hr]
  rfl

theorem perFileRecords_result {i : String → Option String} {ts : List String}
    {f : String} {r : TestRecord} (h : r ∈ perFileRecords i ts f) :
    r.result = TestResult.NOTRUN := by
  obtain ⟨tg, _, fn, _, hr⟩ := mem_perFileRecords.mp h
  rw [← hr]
  rfl

theorem perFileRecords_of_introspect_none {i : String → Option String}
    {ts : List String} {f : String} (h : i f = none) :
    perFileRecords i ts f = [] := by
  simp [perFileRecords, BashTestDriver.get_test_functions_in_file, h]

theorem perFileRecords_length (i : String → Option String) (ts : List String)
    (f : String) : (perFileRecords i ts f).length
      = ts.length * (BashTestDriver.get_test_functions_in_file i f).length := by
  rw [perFileRecords, List.length_flatMap]
  have h : ts.map (List.length ∘ fun target =>
      (BashTestDriver.get_test_functions_in_file i f).map fun test_function =>
        mkTestRecord f (pyWithSuffixEmpty f ++ "::" ++ test_function) target)
      = ts.map fun _ => (BashTestDriver.get_test_functions_in_file i f).length := by
    exact List.map_congr_left fun tg _ => by simp
  rw [h]
  induction ts with
  | nil => simp
  | cons a l ih => simp [ih, Nat.succ_mul, Nat.add_comm]

theorem discover_tests_eq (listing : List String) (i : String → Option String)
    (ts : List String) (gtf : String) :
    BashTestDriver.discover_tests listing i ts gtf
      = (sortedTestFiles listing gtf).flatMap (perFileRecords i ts) := rfl

theorem mem_discover_tests {listing : List String} {i : String → Option String}
    {ts : List String} {gtf : String} {r : TestRecord} :
    r ∈ BashTestDriver.discover_tests listing i ts gtf ↔
      ∃ f ∈ sortedTestFiles listing gtf, r ∈ perFileRecords i ts f := by
  rw [discover_tests_eq]
  exact List.mem_flatMap

theorem discover_tests_filter_file {listing : List String}
    {i : String → Option String} {ts : List String} {gtf : String}
    (hnd : listing.Nodup) (f : String) :
    (BashTestDriver.discover_tests listing i ts gtf).filter
        (fun r => decide (r.file = f))
      = if f ∈ candidateFiles listing gtf then perFileRecords i ts f else [] := by
  rw [discover_tests_eq]
  rw [flatMap_filter_key TestRecord.file (sortedTestFiles listing gtf)
    (perFileRecords i ts) (fun a _ b hb => perFileRecords_file hb)
    (sortedTestFiles_nodup gtf hnd) f]
  by_cases hm : f ∈ candidateFiles listing gtf
  · rw [if_pos hm, if_pos (mem_sortedTestFiles_iff.mpr hm)]
  · rw [if_neg hm, if_neg (fun hc => hm (mem_sortedTestFiles_iff.mp hc))]

theorem perFileRecords_filter_target {i : String → Option String}
    {ts : List String} {f : String} (hnd : ts.Nodup) (tg : String) :
    (perFileRecords i ts f).filter (fun r => decide (r.target = tg))
      = if tg ∈ ts then
          (BashTestDriver.get_test_functions_in_file i f).map fun fn =>
            mkTestRecord f (pyWithSuffixEmpty f ++ "::" ++ fn) tg
        else [] := by
  rw [perFileRecords]
  exact flatMap_filter_key TestRecord.target ts _
    (fun a _ b hb => by
      obtain ⟨fn, _, hr⟩ := List.mem_map.mp hb
      rw [← hr]
      rfl) hnd tg

theorem perFileRecords_map_proj (i : String → Option String) (ts : List String)
    (f : String) :
    (perFileRecords i ts f).map (fun r => (r.name, r.target))
      = ts.flatMap fun tg =>
          (BashTestDriver.get_test_functions_in_file i f).map fun fn =>
            (pyWithSuffixEmpty f ++ "::" ++ fn, tg) := by
  rw [perFileRecords, List.map_flatMap]
  refine congrArg (List.flatMap ts) (funext fun tg => ?_)
  rw [List.map_map]
  rfl

theorem mem_perFileRecords_proj {i : String → Option String} {ts : List String}
    {f : String} {b : String × String}
    (h : b ∈ (perFileRecords i ts f).map (fun r => (r.name, r.target))) :
    ∃ tg ∈ ts, ∃ fn ∈ BashTestDriver.get_test_functions_in_file i f,
      b = (pyWithSuffixEmpty f ++ "::" ++ fn, tg) := by
  rw [perFileRecords_map_proj] at h
  obtain ⟨tg, htg, hb⟩ := List.mem_flatMap.mp h
  obtain ⟨fn, hfn, hb2⟩ := List.mem_map.mp hb
  exact ⟨tg, htg, fn, hfn, hb2.symm⟩

theorem perFileRecords_proj_nodup {i : String → Option String} {ts : List String}
    {f : String} (hndT : ts.Nodup)
    (hndF : (BashTestDriver.get_test_functions_in_file i f).Nodup) :
    ((perFileRecords i ts f).map (fun r => (r.name, r.target))).Nodup := by
  rw [perFileRecords_map_proj]
  apply List.nodup_flatMap.mpr
  constructor
  · intro tg _
    refine List.Nodup.map_on ?_ hndF
    intro x _ y _ hxy
    exact str_append_left_cancel (congrArg Prod.fst hxy)
  · refine hndT.imp ?_
    intro tg₁ tg₂ hne b hb1 hb2
    obtain ⟨fn₁, _, hb1e⟩ := List.mem_map.mp hb1
    obtain ⟨fn₂, _, hb2e⟩ := List.mem_map.mp hb2
    exact hne (congrArg Prod.snd (hb1e.trans hb2e.symm))

theorem discover_tests_proj_nodup {listing ts : List String}
    {i : String → Option String} {gtf : String}
    (hndL : listing.Nodup) (hndT : ts.Nodup)
    (hhid : ∀ f ∈ listing, basenameData f.data ≠ ['.', 's', 'h'])
    (hndF : ∀ f ∈ listing, (BashTestDriver.get_test_functions_in_file i f).Nodup)
    (hcol : ∀ f ∈ listing, ∀ fn ∈ BashTestDriver.get_test_functions_in_file i f,
      ∀ c ∈ fn.data, c ≠ ':') :
    ((BashTestDriver.discover_tests listing i ts gtf).map
      (fun r => (r.name, r.target))).Nodup := by
  rw [discover_tests_eq, List.map_flatMap]
  apply List.nodup_flatMap.mpr
  constructor
  · intro f hf
    exact perFileRecords_proj_nodup hndT
      (hndF f (mem_candidateFiles.mp (mem_sortedTestFiles_iff.mp hf)).1)
  · refine List.Pairwise.imp_of_mem ?_ (sortedTestFiles_nodup gtf hndL)
    intro f₁ f₂ hf₁ hf₂ hne b hb1 hb2
    obtain ⟨tg₁, _, fn₁, hfn₁, hb1e⟩ := mem_perFileRecords_proj hb1
    obtain ⟨tg₂, _, fn₂, hfn₂, hb2e⟩ := mem_perFileRecords_proj hb2
    have hmem₁ := mem_candidateFiles.mp (mem_sortedTestFiles_iff.mp hf₁)
    have hmem₂ := mem_candidateFiles.mp (mem_sortedTestFiles_iff.mp hf₂)
    have hname : pyWithSuffixEmpty f₁ ++ "::" ++ fn₁
        = pyWithSuffixEmpty f₂ ++ "::" ++ fn₂ :=
      congrArg Prod.fst (hb1e.symm.trans hb2e)
    have hids := qualified_name_inj (hcol f₁ hmem₁.1 fn₁ hfn₁)
      (hcol f₂ hmem₂.1 fn₂ hfn₂) hname
    exact hne (pyWithSuffixEmpty_inj hmem₁.2.1 hmem₂.2.1 (hhid f₁ hmem₁.1)
      (hhid f₂ hmem₂.1) hids.1)

theorem discover_tests_length (listing ts : List String)
    (i : String → Option String) (gtf : String) :
    (BashTestDriver.discover_tests listing i ts gtf).length
      = ts.length * discoveredFunctionCount listing i gtf := by
  rw [discover_tests_eq, List.length_flatMap, discoveredFunctionCount]
  have h1 : (sortedTestFiles listing gtf).map (List.length ∘ perFileRecords i ts)
      = (sortedTestFiles listing gtf).map fun f =>
          ts.length * (BashTestDriver.get_test_functions_in_file i f).length :=
    List.map_congr_left fun f _ => perFileRecords_length i ts f
  rw [h1]
  exact List.sum_map_mul_left _ _ _

theorem flatMap_singleton_eq_map {α β : Type} (g : α → β) :
    ∀ l : List α, (l.flatMap fun a => [g a]) = l.map g
  | [] => rfl
  | a :: l => by
    rw [List.flatMap_cons, flatMap_singleton_eq_map g l]
    rfl

/-! ### Claims -/

/-- C1: for a suite with T requested targets and N discovered test
functions, discover_tests returns exactly T x N TestRecords, each with a
distinct (qualifiedName, target) pair, and every qualified name has the
form relative-path-without-extension :: function-name. The
well-formedness hypotheses reflect the intended setting: the walk yields
no duplicate paths, the requested targets are distinct, no test file is
a dot-file named exactly ".sh", and the shell reports per file a
duplicate-free list of function names that contain no colon. -/
theorem C1_discovery_record_matrix
    (listing ts : List String) (i : String → Option String) (gtf : String)
    (hndL : listing.Nodup) (hndT : ts.Nodup)
    (hhid : ∀ f ∈ listing, basenameData f.data ≠ ['.', 's', 'h'])
    (hndF : ∀ f ∈ listing, (BashTestDriver.get_test_functions_in_file i f).Nodup)
    (hcol : ∀ f ∈ listing, ∀ fn ∈ BashTestDriver.get_test_functions_in_file i f,
      ∀ c ∈ fn.data, c ≠ ':') :
    (BashTestDriver.discover_tests listing i ts gtf).length
        = ts.length * discoveredFunctionCount listing i gtf
    ∧ ((BashTestDriver.discover_tests listing i ts gtf).map
        (fun r => (r.name, r.target))).Nodup
    ∧ ∀ r ∈ BashTestDriver.discover_tests listing i ts gtf,
        ∃ f ∈ listing, ∃ fn ∈ BashTestDriver.get_test_functions_in_file i f,
          r.name = pyWithSuffixEmpty f ++ "::" ++ fn := by
  refine ⟨discover_tests_length listing ts i gtf,
    discover_tests_proj_nodup hndL hndT hhid hndF hcol, ?_⟩
  intro r hr
  obtain ⟨f, hf, hr2⟩ := mem_discover_tests.mp hr
  obtain ⟨tg, _, fn, hfn, hre⟩ := mem_perFileRecords.mp hr2
  refine ⟨f, (mem_candidateFiles.mp (mem_sortedTestFiles_iff.mp hf)).1, fn, hfn, ?_⟩
  rw [← hre]
  rfl

/-- Witness for C1 at a concrete suite: two files, two targets, three
discovered functions, giving 2 x 3 records. -/
theorem C1_discovery_record_matrix_witness :
    (BashTestDriver.discover_tests ["b.sh", "a.sh"]
        (fun f => if f = "a.sh" then some "test_x\ntest_y" else some "test_z")
        ["t1", "t2"] "tests.sh").length
      = (["t1", "t2"] : List String).length
        * discoveredFunctionCount ["b.sh", "a.sh"]
            (fun f => if f = "a.sh" then some "test_x\ntest_y" else some "test_z")
            "tests.sh"
    ∧ ((BashTestDriver.discover_tests ["b.sh", "a.sh"]
        (fun f => if f = "a.sh" then some "test_x\ntest_y" else some "test_z")
        ["t1", "t2"] "tests.sh").map (fun r => (r.name, r.target))).Nodup
    ∧ ∀ r ∈ BashTestDriver.discover_tests ["b.sh", "a.sh"]
        (fun f => if f = "a.sh" then some "test_x\ntest_y" else some "test_z")
        ["t1", "t2"] "tests.sh",
        ∃ f ∈ (["b.sh", "a.sh"] : List String),
          ∃ fn ∈ BashTestDriver.get_test_functions_in_file
            (fun f => if f = "a.sh" then some "test_x\ntest_y" else some "test_z") f,
            r.name = pyWithSuffixEmpty f ++ "::" ++ fn :=
  C1_discovery_record_matrix ["b.sh", "a.sh"] ["t1", "t2"]
    (fun f => if f = "a.sh" then some "test_x\ntest_y" else some "test_z")
    "tests.sh" (by decide) (by decide) (by decide) (by decide) (by decide)

/-- C2: the claim states that with dry_run = true no child process is
spawned and every TestRecord ends in state DryRun. The first half holds
trivially - run_tests never invokes the driver - but only because the
body of TestRunner.run_tests is a stub: it prepares the output directory
and then does nothing, so records stay NOTRUN and are never transitioned
to DRYRUN. Evaluation at a concrete dry-run invocation with one freshly
discovered record: -/
theorem C2_dry_run_leaves_records_NOTRUN :
    (TestRunner.run_tests
        { test_suite_dirs := ["suite"], out_dir := "out", target := some "local",
          dry_run := true, test_filter := none }
        ⟨{ name := some "s", description := none, version := none,
            driver := some "bash", test_file_pattern := [], global_fixture := none },
          [mkTestRecord "a.sh" "a::test_x" "local"]⟩).2 = 0
    ∧ ((TestRunner.run_tests
        { test_suite_dirs := ["suite"], out_dir := "out", target := some "local",
          dry_run := true, test_filter := none }
        ⟨{ name := some "s", description := none, version := none,
            driver := some "bash", test_file_pattern := [], global_fixture := none },
          [mkTestRecord "a.sh" "a::test_x" "local"]⟩).1.test_records.map
        (fun r => r.result)) = [TestResult.NOTRUN]
    ∧ (BashTestDriver.run_test (mkTestRecord "a.sh" "a::test_x" "local")).2 = 0
    ∧ TestResult.NOTRUN ≠ TestResult.DRYRUN :=
  ⟨rfl, rfl, rfl, by decide⟩

/-- C3 counterexample: the interpreter reports the single function name
"setup" - the reserved setup name, which also lacks the test prefix -
and the driver returns it anyway, so a non-test name does appear in the
returned list. -/
theorem C3_no_filtering_counterexample :
    BashTestDriver.get_test_functions_in_file (fun _ => some "setup") "file.sh"
        = ["setup"]
    ∧ hasTestFnPrefixConvention "setup" = false
    ∧ "setup" = TEST_FN_SETUP :=
  ⟨by decide, by decide, rfl⟩

/-- C3 amended: get_test_functions_in_file applies no name-based
filtering at all: every name in the stripped-and-split interpreter
output is returned - including names that do not match the fixed test
prefix - and such a name then produces discovery records. -/
theorem C3_returns_unfiltered_names
    (listing ts : List String) (i : String → Option String)
    (gtf f out fn tg : String)
    (hi : i f = some out)
    (hfn : fn ∈ (pySplitOnChar '\n' (pyStrip out.data)).map String.mk)
    (hnp : hasTestFnPrefixConvention fn = false)
    (hf : f ∈ listing) (hsh : endsWithSh f = true)
    (hbn : String.mk (basenameData f.data) ≠ gtf) (htg : tg ∈ ts) :
    fn ∈ BashTestDriver.get_test_functions_in_file i f
    ∧ mkTestRecord f (pyWithSuffixEmpty f ++ "::" ++ fn) tg
        ∈ BashTestDriver.discover_tests listing i ts gtf := by
  have h1 : fn ∈ BashTestDriver.get_test_functions_in_file i f := by
    rw [BashTestDriver.get_test_functions_in_file, hi]
    exact hfn
  refine ⟨h1, ?_⟩
  apply mem_discover_tests.mpr
  exact ⟨f, mem_sortedTestFiles_iff.mpr (mem_candidateFiles.mpr ⟨hf, hsh, hbn⟩),
    mem_perFileRecords.mpr ⟨tg, htg, fn, h1, rfl⟩⟩

/-- Witness for the amended C3: the reserved name "setup" reported next
to a test function ends up as a discovered record. -/
theorem C3_returns_unfiltered_names_witness :
    "setup" ∈ BashTestDriver.get_test_functions_in_file
        (fun _ => some "setup\ntest_a") "a.sh"
    ∧ mkTestRecord "a.sh" (pyWithSuffixEmpty "a.sh" ++ "::" ++ "setup") "local"
        ∈ BashTestDriver.discover_tests ["a.sh"]
            (fun _ => some "setup\ntest_a") ["local"] "tests.sh" :=
  C3_returns_unfiltered_names ["a.sh"] ["local"] (fun _ => some "setup\ntest_a")
    "tests.sh" "a.sh" "setup\ntest_a" "setup" "local" (by decide) (by decide)
    (by decide) (by decide) (by decide) (by decide) (by decide)

/-- C4: discovery is deterministic: any two walk orders of the unchanged
suite directory (permutations of one listing) give the same record list;
the files are visited in sorted lexicographic order; and per file and
target the function names keep their interpreter-reported order in the
qualified names. -/
theorem C4_discovery_deterministic
    (listing₁ listing₂ ts : List String) (i : String → Option String)
    (gtf : String) (hperm : listing₁.Perm listing₂) :
    BashTestDriver.discover_tests listing₁ i ts gtf
        = BashTestDriver.discover_tests listing₂ i ts gtf
    ∧ List.Sorted (fun a b => strLe a b = true) (sortedTestFiles listing₁ gtf)
    ∧ ∀ f tg, listing₁.Nodup → ts.Nodup →
        f ∈ candidateFiles listing₁ gtf → tg ∈ ts →
        (((BashTestDriver.discover_tests listing₁ i ts gtf).filter
            (fun r => decide (r.file = f))).filter
            (fun r => decide (r.target = tg))).map (fun r => r.name)
          = (BashTestDriver.get_test_functions_in_file i f).map
              (fun fn => pyWithSuffixEmpty f ++ "::" ++ fn) := by
  refine ⟨?_, sortedTestFiles_sorted _ _, ?_⟩
  · rw [discover_tests_eq, discover_tests_eq]
    have hs : sortedTestFiles listing₁ gtf = sortedTestFiles listing₂ gtf := by
      apply List.eq_of_perm_of_sorted (r := fun a b => strLe a b = true)
      · exact (sortedTestFiles_perm _ _).trans
          ((hperm.filter _).trans (sortedTestFiles_perm _ _).symm)
      · exact sortedTestFiles_sorted _ _
      · exact sortedTestFiles_sorted _ _
    rw [hs]
  · intro f tg hndL hndT hf htg
    rw [discover_tests_filter_file hndL f, if_pos hf,
      perFileRecords_filter_target hndT tg, if_pos htg, List.map_map]
    rfl

/-- Witness for C4: two orders of the same directory walk. -/
theorem C4_discovery_deterministic_witness :
    BashTestDriver.discover_tests ["b.sh", "a.sh"] (fun _ => some "test_a")
        ["local"] "tests.sh"
      = BashTestDriver.discover_tests ["a.sh", "b.sh"] (fun _ => some "test_a")
        ["local"] "tests.sh"
    ∧ List.Sorted (fun a b => strLe a b = true)
        (sortedTestFiles ["b.sh", "a.sh"] "tests.sh")
    ∧ ∀ f tg, (["b.sh", "a.sh"] : List String).Nodup →
        (["local"] : List String).Nodup →
        f ∈ candidateFiles ["b.sh", "a.sh"] "tests.sh" →
        tg ∈ (["local"] : List String) →
        (((BashTestDriver.discover_tests ["b.sh", "a.sh"] (fun _ => some "test_a")
            ["local"] "tests.sh").filter
            (fun r => decide (r.file = f))).filter
            (fun r => decide (r.target = tg))).map (fun r => r.name)
          = (BashTestDriver.get_test_functions_in_file (fun _ => some "test_a") f).map
              (fun fn => pyWithSuffixEmpty f ++ "::" ++ fn) :=
  C4_discovery_deterministic ["b.sh", "a.sh"] ["a.sh", "b.sh"] ["local"]
    (fun _ => some "test_a") "tests.sh" (by decide)

/-- C5: a file whose introspection fails contributes no records - the
run behaves exactly as if the file were absent from the walk - and
discovery of all other files proceeds. -/
theorem C5_introspection_failure_skips_file
    (listing ts : List String) (i : String → Option String) (gtf f₀ : String)
    (hi : i f₀ = none) :
    BashTestDriver.discover_tests listing i ts gtf
        = BashTestDriver.discover_tests
            (listing.filter fun f => ! decide (f = f₀)) i ts gtf
    ∧ ∀ r ∈ BashTestDriver.discover_tests listing i ts gtf, r.file ≠ f₀ := by
  constructor
  · rw [discover_tests_eq, discover_tests_eq, sortedTestFiles_filter_comm]
    refine (flatMap_filter_of_empty _ _ _ (fun a _ hp => ?_)).symm
    have ha : a = f₀ := by simpa using hp
    rw [ha]
    exact perFileRecords_of_introspect_none hi
  · intro r hr hemp
    obtain ⟨f, hf, hr2⟩ := mem_discover_tests.mp hr
    have hfe : f = f₀ := by rw [← perFileRecords_file hr2, hemp]
    rw [hfe, perFileRecords_of_introspect_none hi] at hr2
    exact List.not_mem_nil r hr2

/-- Witness for C5: a malformed file next to a healthy one. -/
theorem C5_introspection_failure_skips_file_witness :
    BashTestDriver.discover_tests ["bad.sh", "good.sh"]
        (fun f => if f = "bad.sh" then none else some "test_a")
        ["local"] "tests.sh"
      = BashTestDriver.discover_tests
          ((["bad.sh", "good.sh"] : List String).filter
            fun f => ! decide (f = "bad.sh"))
          (fun f => if f = "bad.sh" then none else some "test_a")
          ["local"] "tests.sh"
    ∧ ∀ r ∈ BashTestDriver.discover_tests ["bad.sh", "good.sh"]
        (fun f => if f = "bad.sh" then none else some "test_a")
        ["local"] "tests.sh", r.file ≠ "bad.sh" :=
  C5_introspection_failure_skips_file ["bad.sh", "good.sh"] ["local"]
    (fun f => if f = "bad.sh" then none else some "test_a") "tests.sh" "bad.sh"
    (by decide)

/-- C6 counterexample: a manifest that declares global fixture
"common.sh" while no such file exists on disk (the existence oracle is
constantly false): add_test_suite still succeeds - the declared fixture
is never checked, refuting the second half of the claim. -/
theorem C6_missing_fixture_not_fatal_counterexample :
    (fun _ => false : String → Bool) "common.sh" = false
    ∧ TestRunner.add_test_suite
        (fun p => if p = "suite/test-suite.json"
          then some { driver := some "bash", globalFixture := some "common.sh" }
          else none)
        (fun _ => false) "suite" []
      = Except.ok [("suite",
          ⟨{ name := none, description := none, version := none,
              driver := some "bash", test_file_pattern := [],
              global_fixture := some "common.sh" }, []⟩)] :=
  ⟨rfl, by decide⟩

/-- C6 amended: add_test_suite fails (fatally, as the uncaught
FileNotFoundError of the open call) exactly when the manifest file is
missing; the on-disk presence of a declared global fixture is never
consulted, so its absence cannot fail the call. -/
theorem C6_fatal_iff_manifest_missing
    (manifests : String → Option ManifestJson) (fe₁ fe₂ : String → Bool)
    (dir : String) (suites : List (String × TestSuite)) :
    TestRunner.add_test_suite manifests fe₁ dir suites
        = TestRunner.add_test_suite manifests fe₂ dir suites
    ∧ exceptIsOk (TestRunner.add_test_suite manifests fe₁ dir suites)
        = (manifests (dir ++ "/test-suite.json")).isSome := by
  refine ⟨rfl, ?_⟩
  rw [TestRunner.add_test_suite, TestSuiteConfig.load]
  cases manifests (dir ++ "/test-suite.json") <;> rfl

/-- C7 counterexample: elapsed on a Duration with neither timestamp set
fails with the generic TypeError of the None subtraction, which is not
the distinguished InvalidState contract-violation error the claim
requires. -/
theorem C7_elapsed_error_counterexample :
    Duration.elapsed { start_time := none, end_time := none }
        = Except.error PyError.typeError
    ∧ PyError.typeError ≠ PyError.invalidState :=
  ⟨rfl, by decide⟩

/-- C7 amended: elapsed returns end - start once both timestamps are
set; calling it earlier fails with the generic TypeError raised by
subtracting None, not with a distinguished InvalidState error. -/
theorem C7_elapsed_behaviour (d : Duration) :
    (∀ s e : Int, d.start_time = some s → d.end_time = some e →
      d.elapsed = Except.ok (e - s))
    ∧ ((d.start_time = none ∨ d.end_time = none) →
      d.elapsed = Except.error PyError.typeError) := by
  constructor
  · intro s e hs he
    rw [Duration.elapsed, hs, he]
  · intro h
    rcases h with h | h
    · cases he : d.end_time with
      | none => rw [Duration.elapsed, he]
      | some e => rw [Duration.elapsed, he, h]
    · rw [Duration.elapsed, h]

/-- Witness for the amended C7. -/
theorem C7_elapsed_behaviour_witness :
    Duration.elapsed { start_time := some 3, end_time := some 10 }
        = Except.ok (10 - 3)
    ∧ Duration.elapsed { start_time := none, end_time := some 10 }
        = Except.error PyError.typeError :=
  ⟨(C7_elapsed_behaviour { start_time := some 3, end_time := some 10 }).1
      3 10 rfl rfl,
    (C7_elapsed_behaviour { start_time := none, end_time := some 10 }).2
      (Or.inl rfl)⟩

/-- C8 counterexample: a manifest without the test-file-pattern key
loads with pattern [] - not the driver default - and a file "a.bash",
though it matches the driver's default pattern, is never scanned:
discovery over a listing holding only that file yields no records. -/
theorem C8_pattern_defaulting_counterexample :
    TestSuiteConfig.load
        (fun p => if p = "suite/test-suite.json"
          then some { driver := some "bash" } else none) "suite"
      = Except.ok ⟨none, none, none, some "bash", [], none⟩
    ∧ BashTestDriver.default_test_file_pattern = ["*.sh", "*.bash"]
    ∧ ([] : List String) ≠ BashTestDriver.default_test_file_pattern
    ∧ BashTestDriver.discover_tests ["a.bash"] (fun _ => some "test_a")
        ["local"] "tests.sh" = [] :=
  ⟨by decide, rfl, by decide, by decide⟩

/-- C8 amended: when the manifest omits the key the loaded pattern is
the empty list, and discovery ignores the configured pattern entirely:
the files scanned are exactly those ending in ".sh", so the driver
default ["*.sh", "*.bash"] is never consulted and *.bash files are not
scanned. -/
theorem C8_pattern_ignored_by_discovery
    (manifests : String → Option ManifestJson) (dir : String) (j : ManifestJson)
    (hm : manifests (dir ++ "/test-suite.json") = some j)
    (hj : j.testFilePattern = none) :
    TestSuiteConfig.load manifests dir
        = Except.ok ⟨j.name, j.description, j.version, j.driver, [], j.globalFixture⟩
    ∧ ∀ (listing ts : List String) (i : String → Option String) (gtf : String)
        (r : TestRecord), r ∈ BashTestDriver.discover_tests listing i ts gtf →
          endsWithSh r.file = true := by
  constructor
  · rw [TestSuiteConfig.load, hm]
    simp [hj]
  · intro listing ts i gtf r hr
    obtain ⟨f, hf, hr2⟩ := mem_discover_tests.mp hr
    rw [perFileRecords_file hr2]
    exact (mem_candidateFiles.mp (mem_sortedTestFiles_iff.mp hf)).2.1

/-- Witness for the amended C8. -/
theorem C8_pattern_ignored_by_discovery_witness :
    TestSuiteConfig.load
        (fun p => if p = "suite/test-suite.json"
          then some { driver := some "bash" } else none) "suite"
      = Except.ok ⟨none, none, none, some "bash", [], none⟩
    ∧ ∀ (listing ts : List String) (i : String → Option String) (gtf : String)
        (r : TestRecord), r ∈ BashTestDriver.discover_tests listing i ts gtf →
          endsWithSh r.file = true := by
  have h := C8_pattern_ignored_by_discovery
    (fun p => if p = "suite/test-suite.json"
      then some { driver := some "bash" } else none) "suite"
    { driver := some "bash" } (by decide) rfl
  exact h

/-- C9 counterexample: the suite's manifest declares global fixture
"common.sh", yet discovery produces a record for that very file: the
exclusion at line 167 compares basenames against the module-level
GLOBAL_TEST_FILE name, not against the configured fixture. -/
theorem C9_fixture_not_excluded_counterexample :
    TestSuiteConfig.load
        (fun p => if p = "suite/test-suite.json"
          then some { driver := some "bash", globalFixture := some "common.sh" }
          else none) "suite"
      = Except.ok ⟨none, none, none, some "bash", [], some "common.sh"⟩
    ∧ "common.sh" ∈ (BashTestDriver.discover_tests ["common.sh", "a.sh"]
        (fun _ => some "test_x") ["local"] "tests.sh").map (fun r => r.file) :=
  ⟨by decide, by decide⟩

/-- C9 amended: discovery scans the walked listing and excludes exactly
the files whose basename equals the module-level GLOBAL_TEST_FILE name;
the suite's configured global fixture plays no role, and a fixture file
with any other basename ending in ".sh" does contribute records. -/
theorem C9_exclusion_by_module_constant
    (listing ts : List String) (i : String → Option String) (gtf fix : String)
    (hfe : fix ∈ listing) (hsh : endsWithSh fix = true)
    (hbn : String.mk (basenameData fix.data) ≠ gtf)
    (hfn : BashTestDriver.get_test_functions_in_file i fix ≠ [])
    (hts : ts ≠ []) :
    (∀ r ∈ BashTestDriver.discover_tests listing i ts gtf,
        r.file ∈ listing ∧ endsWithSh r.file = true
          ∧ String.mk (basenameData r.file.data) ≠ gtf)
    ∧ ∃ r ∈ BashTestDriver.discover_tests listing i ts gtf, r.file = fix := by
  constructor
  · intro r hr
    obtain ⟨f, hf, hr2⟩ := mem_discover_tests.mp hr
    rw [perFileRecords_file hr2]
    exact mem_candidateFiles.mp (mem_sortedTestFiles_iff.mp hf)
  · obtain ⟨tg, hts2⟩ := List.exists_mem_of_ne_nil ts hts
    obtain ⟨fn, hfn2⟩ := List.exists_mem_of_ne_nil _ hfn
    refine ⟨mkTestRecord fix (pyWithSuffixEmpty fix ++ "::" ++ fn) tg, ?_, rfl⟩
    apply mem_discover_tests.mpr
    exact ⟨fix, mem_sortedTestFiles_iff.mpr (mem_candidateFiles.mpr ⟨hfe, hsh, hbn⟩),
      mem_perFileRecords.mpr ⟨tg, hts2, fn, hfn2, rfl⟩⟩

/-- Witness for the amended C9: a configured-fixture-like file named
"common.sh" is scanned and contributes a record. -/
theorem C9_exclusion_by_module_constant_witness :
    (∀ r ∈ BashTestDriver.discover_tests ["common.sh", "a.sh"]
        (fun _ => some "test_x") ["local"] "tests.sh",
        r.file ∈ (["common.sh", "a.sh"] : List String)
          ∧ endsWithSh r.file = true
          ∧ String.mk (basenameData r.file.data) ≠ "tests.sh")
    ∧ ∃ r ∈ BashTestDriver.discover_tests ["common.sh", "a.sh"]
        (fun _ => some "test_x") ["local"] "tests.sh", r.file = "common.sh" :=
  C9_exclusion_by_module_constant ["common.sh", "a.sh"] ["local"]
    (fun _ => some "test_x") "tests.sh" "common.sh" (by decide) (by decide)
    (by decide) (by decide) (by decide)

/-- C10: when the introspection subprocess succeeds with empty output,
the strip-then-split computation returns a one-element list holding the
empty string (not an empty list), so discovery produces one TestRecord
per target for the file, each with a qualified name ending in "::". -/
theorem C10_empty_output_single_empty_name
    (listing ts : List String) (i : String → Option String) (gtf f : String)
    (hi : i f = some "")
    (hndL : listing.Nodup) (hf : f ∈ listing)
    (hsh : endsWithSh f = true)
    (hbn : String.mk (basenameData f.data) ≠ gtf) :
    BashTestDriver.get_test_functions_in_file i f = [""]
    ∧ (BashTestDriver.discover_tests listing i ts gtf).filter
        (fun r => decide (r.file = f))
      = ts.map fun tg => mkTestRecord f (pyWithSuffixEmpty f ++ "::") tg := by
  have hg : BashTestDriver.get_test_functions_in_file i f = [""] := by
    rw [BashTestDriver.get_test_functions_in_file, hi]
    rfl
  refine ⟨hg, ?_⟩
  rw [discover_tests_filter_file hndL f,
    if_pos (mem_candidateFiles.mpr ⟨hf, hsh, hbn⟩), perFileRecords, hg]
  have h2 : (fun tg => ([""] : List String).map fun fn =>
      mkTestRecord f (pyWithSuffixEmpty f ++ "::" ++ fn) tg)
      = fun tg => [mkTestRecord f (pyWithSuffixEmpty f ++ "::") tg] :=
    funext fun tg => by simp [str_append_empty]
  rw [h2]
  exact flatMap_singleton_eq_map _ ts

/-- Witness for C10: a function-less file next to a normal one. -/
theorem C10_empty_output_single_empty_name_witness :
    BashTestDriver.get_test_functions_in_file
        (fun f => if f = "empty.sh" then some "" else some "test_a") "empty.sh"
      = [""]
    ∧ (BashTestDriver.discover_tests ["a.sh", "empty.sh"]
        (fun f => if f = "empty.sh" then some "" else some "test_a")
        ["t1", "t2"] "tests.sh").filter
        (fun r => decide (r.file = "empty.sh"))
      = (["t1", "t2"] : List String).map fun tg =>
          mkTestRecord "empty.sh" (pyWithSuffixEmpty "empty.sh" ++ "::") tg :=
  C10_empty_output_single_empty_name ["a.sh", "empty.sh"] ["t1", "t2"]
    (fun f => if f = "empty.sh" then some "" else some "test_a") "tests.sh"
    "empty.sh" (by decide) (by decide) (by decide) (by decide) (by decide)

end Batrun
